import Mathlib

/-!
Verification of the three-step synthetic e-commerce pipeline
(`generate_ecommerce_data.py`, `load_csv_to_sqlite.py`,
`order_summary_report.py`) against its specification.

Modelling conventions:
* Python `int` values are `Nat`/`Int`; 32-bit PRNG arithmetic is `Nat`
  with explicit `% 2^32`.
* Python `float` values appearing in this pipeline are exact decimals
  (at most two fractional digits, small magnitude); they are modelled as
  `ℚ`.  For every value the pipeline produces, the binary `float`
  rounding and `"%.2f"` formatting agree with the exact-rational model,
  so decimal parsing/formatting is embedded exactly on `ℚ`.
* CSV files are structured as a header plus rows of strings; byte-level
  serialization (comma separation, minimal quoting, CRLF line ends, as
  produced by Python's `csv` module) is modelled for the generator's
  output files.
* The CPython `random.Random` generator (MT19937 with `init_by_array`
  seeding, `getrandbits`-based `randint`) is embedded bit-exactly; the
  624-word state vector is packed into one `Nat` in base `2^32`
  (word `i` occupies bits `32*i .. 32*i+31`), and the rejection loop of
  `_randbelow` carries explicit fuel to stay total.
* `forceNat` is a strictness combinator (semantically the identity,
  see `forceNat_eq`); it forces intermediate numbers to literals so that
  definitional evaluation of the generator stays shallow.
-/

set_option maxRecDepth 20000
set_option exponentiation.threshold 100000

namespace ECom

/-! ## CPython `random` module: MT19937 -/

/-- `2^32`, the modulus of all MT19937 arithmetic. -/
def U32 : Nat := 4294967296

/-- `2^(32*i)`: place value of word `i` in the packed state vector. -/
def pow32 (i : Nat) : Nat := 2 ^ (32 * i)

/-- Word `i` of a base-`2^32` packed state vector. -/
def mtGet (mt i : Nat) : Nat :=
  (mt / pow32 i) % U32

/-- Replace word `i` of a packed state vector by `v` (with `v < 2^32`). -/
def mtSet (mt i v : Nat) : Nat :=
  mt - mtGet mt i * pow32 i + v * pow32 i

/-- Strictness combinator: `forceNat n k = k n`, but evaluation brings `n` to
a literal before continuing. -/
def forceNat (n : Nat) (k : Nat → α) : α :=
  match n with
  | 0 => k 0
  | m + 1 => k (m + 1)

/-- Tail of `init_genrand`: builds words
`mt[i] = (1812433253 * (mt[i-1] ^ (mt[i-1] >> 30)) + i) mod 2^32` for `i = 1..623`. -/
def initGenrandAux : Nat → Nat → Nat → Nat → Nat
  | 0, _, _, acc => acc
  | c + 1, i, prev, acc =>
    forceNat ((1812433253 * (prev ^^^ (prev >>> 30)) + i) % U32) fun v =>
    forceNat (acc + v * pow32 i) fun acc2 =>
    forceNat (i + 1) fun i2 =>
    initGenrandAux c i2 v acc2

/-- `init_genrand(s)`: the 624-word state seeded from a single word. -/
def initGenrand (s : Nat) : Nat :=
  initGenrandAux 623 1 (s % U32) (s % U32)

/-- First mixing loop of `init_by_array` (multiplier 1664525, key injection);
returns the state together with the running index `i`, which the second
loop continues from. -/
def ibaLoop1 (key : List Nat) : Nat → Nat → Nat → Nat → Nat × Nat
  | 0, i, _, mt => (mt, i)
  | k + 1, i, j, mt =>
    let prev := mtGet mt (i - 1)
    let mult := ((prev ^^^ (prev >>> 30)) * 1664525) % U32
    forceNat (((mtGet mt i ^^^ mult) + key.getD j 0 + j) % U32) fun v =>
    forceNat (mtSet mt i v) fun mt1 =>
    forceNat (if j + 1 ≥ key.length then 0 else j + 1) fun j2 =>
    if i + 1 ≥ 624 then
      forceNat (mtSet mt1 0 (mtGet mt1 623)) fun mt2 =>
      ibaLoop1 key k 1 j2 mt2
    else
      forceNat (i + 1) fun i2 =>
      ibaLoop1 key k i2 j2 mt1

/-- Second mixing loop of `init_by_array` (multiplier 1566083941, index
subtraction). -/
def ibaLoop2 : Nat → Nat → Nat → Nat
  | 0, _, mt => mt
  | k + 1, i, mt =>
    let prev := mtGet mt (i - 1)
    let mult := ((prev ^^^ (prev >>> 30)) * 1566083941) % U32
    forceNat (((mtGet mt i ^^^ mult) + U32 - i) % U32) fun v =>
    forceNat (mtSet mt i v) fun mt1 =>
    if i + 1 ≥ 624 then
      forceNat (mtSet mt1 0 (mtGet mt1 623)) fun mt2 =>
      ibaLoop2 k 1 mt2
    else
      forceNat (i + 1) fun i2 =>
      ibaLoop2 k i2 mt1

/-- `init_by_array(key)`: seeds from `init_genrand(19650218)` then mixes the
key in with the two loops, finally pinning `mt[0] = 0x80000000`. -/
def initByArray (key : List Nat) : Nat :=
  forceNat (initGenrand 19650218) fun mt0 =>
  let p := ibaLoop1 key (max 624 key.length) 1 0 mt0
  forceNat p.1 fun mt1 =>
  forceNat p.2 fun i1 =>
  forceNat (ibaLoop2 623 i1 mt1) fun mt2 =>
  mtSet mt2 0 2147483648

/-- Splits a nonnegative seed into little-endian 32-bit words, as CPython's
`random_seed` does for `int` arguments (fuel-driven; `n / 2^32 < n`). -/
def intToKeyAux : Nat → Nat → List Nat
  | 0, _ => []
  | f + 1, n => if n = 0 then [] else (n % U32) :: intToKeyAux f (n / U32)

/-- The `init_by_array` key for an integer seed. -/
def intToKey (n : Nat) : List Nat :=
  if n = 0 then [0] else intToKeyAux n n

/-- Mersenne Twister state: packed 624-word vector and the output index. -/
structure MTState where
  mt : Nat
  index : Nat

/-- `random.Random(n)` for an `int` seed: fully seeded state, output index at
624 so the first extraction regenerates the block. -/
def pythonSeedMT (n : Nat) : MTState :=
  ⟨initByArray (intToKey n), 624⟩

/-- One in-place update of the MT generation (twist) pass at position `i`. -/
def twistStep (mt i : Nat) : Nat :=
  let y := (mtGet mt i).land 2147483648 ||| (mtGet mt ((i + 1) % 624)).land 2147483647
  let v := mtGet mt ((i + 397) % 624) ^^^ (y >>> 1) ^^^ (if y % 2 = 1 then 2567483615 else 0)
  mtSet mt i v

/-- The 624-step twist pass regenerating the state block. -/
def twistAux : Nat → Nat → Nat → Nat
  | 0, _, mt => mt
  | c + 1, i, mt =>
    forceNat (twistStep mt i) fun mt2 =>
    forceNat (i + 1) fun i2 =>
    twistAux c i2 mt2

/-- The full twist over all 624 positions. -/
def twist (mt : Nat) : Nat := twistAux 624 0 mt

/-- `genrand_uint32`: twist when the block is exhausted, then output the
tempered word. -/
def genrandUint32 (s : MTState) : Nat × MTState :=
  forceNat (if s.index ≥ 624 then twist s.mt else s.mt) fun mt =>
  forceNat (if s.index ≥ 624 then 0 else s.index) fun idx =>
  let y0 := mtGet mt idx
  let y1 := y0 ^^^ (y0 >>> 11)
  let y2 := y1 ^^^ ((y1 <<< 7).land 2636928640)
  let y3 := y2 ^^^ ((y2 <<< 15).land 4022730752)
  forceNat (y3 ^^^ (y3 >>> 18)) fun y4 =>
  (y4, ⟨mt, idx + 1⟩)

/-- `getrandbits(k)` for `0 < k ≤ 32`: the top `k` bits of one output word. -/
def getrandbits (k : Nat) (s : MTState) : Nat × MTState :=
  let p := genrandUint32 s
  forceNat (p.1 >>> (32 - k)) fun r => (r, p.2)

/-- Python `int.bit_length`, by structural recursion on fuel. -/
def bitLengthAux : Nat → Nat → Nat
  | 0, _ => 0
  | f + 1, n => if n = 0 then 0 else bitLengthAux f (n / 2) + 1

/-- Python `int.bit_length`. -/
def bitLength (n : Nat) : Nat := bitLengthAux n n

/-- The rejection loop of `_randbelow_with_getrandbits`, with fuel; the fuel
is never exhausted on any draw this development evaluates. -/
def randbelowLoop : Nat → Nat → Nat → MTState → Nat × MTState
  | 0, _, _, s => (0, s)
  | f + 1, k, n, s =>
    let p := getrandbits k s
    if p.1 < n then p else randbelowLoop f k n p.2

/-- `Random._randbelow(n)`: uniform draw in `[0, n)` by rejection. -/
def randbelow (n : Nat) (s : MTState) : Nat × MTState :=
  if n = 0 then (0, s) else randbelowLoop 64 (bitLength n) n s

/-- `Random.randint(a, b)` = `randrange(a, b+1)` = `a + _randbelow(b+1-a)`. -/
def randint (a b : Nat) (s : MTState) : Nat × MTState :=
  let p := randbelow (b + 1 - a) s
  (a + p.1, p.2)

/-! ## Numeric and string helpers shared by the pipeline -/

/-- Zero-padded two-digit decimal rendering (Python `:02d`). -/
def pad2 (n : Nat) : String :=
  if n < 10 then "0" ++ toString n else toString n

/-- Zero-padded three-digit decimal rendering (Python `:03d`). -/
def pad3 (n : Nat) : String :=
  if n < 10 then "00" ++ toString n
  else if n < 100 then "0" ++ toString n
  else toString n

/-- The value of a list of decimal digit characters. -/
def digitsToNat (l : List Char) : Nat :=
  l.foldl (fun a c => a * 10 + (c.toNat - 48)) 0

/-- Python `float(s)` on the nonnegative decimal literals this pipeline
produces (digits, optionally a point and more digits), modelled exactly as a
rational number: `intpart.frac = (intpart·10^k + frac) / 10^k`. -/
def pyFloat (s : String) : ℚ :=
  let l := s.data
  let intPart := l.takeWhile (fun c => !(c == '.'))
  let frac := (l.dropWhile (fun c => !(c == '.'))).drop 1
  mkRat (digitsToNat intPart * 10 ^ frac.length + digitsToNat frac) (10 ^ frac.length)

/-- Python `int(s)` on the nonnegative decimal literals this pipeline
produces. -/
def pyInt (s : String) : Int :=
  (digitsToNat s.data : Int)

/-- Rational multiplication computed on numerators/denominators; equal to
`a * b` (see `ratMul_eq`), but definitionally reducible, unlike the
`@[irreducible]` `Rat.mul`. -/
def ratMul (a b : ℚ) : ℚ :=
  mkRat (a.num * b.num) (a.den * b.den)

/-- Python `f"{x:.2f}"` on the nonnegative values this pipeline formats:
round half-to-even at two decimals, render with exactly two fraction
digits.  Computed on the numerator/denominator of `x`: with `n = 100·num`,
`d = den`, the floor of `100x` is `n.fdiv d` and the fractional remainder
`r = (n - d·⌊100x⌋)/d` is compared with `1/2` by cross-multiplication.
On every value this pipeline formats, `100x` is an integer, so no rounding
occurs and the binary-`float` formatting agrees. -/
def format2f (x : ℚ) : String :=
  let n : Int := x.num * 100
  let d : Int := (x.den : Int)
  let f : Int := Int.fdiv n d
  let rnum : Int := n - f * d
  let cents : Int :=
    if 2 * rnum < d then f else if d < 2 * rnum then f + 1
    else if f % 2 = 0 then f else f + 1
  let m : Nat := cents.toNat
  toString (m / 100) ++ "." ++ pad2 (m % 100)

/-- Month lengths of 2024 (a leap year); every date in this pipeline lies
in 2024. -/
def monthLengths2024 : List Nat := [31, 29, 31, 30, 31, 30, 31, 31, 30, 31, 30, 31]

/-- Converts a 1-based day-of-year offset into a (month, day) pair. -/
def monthDay : List Nat → Nat → Nat → Nat × Nat
  | [], m, day => (m, day)
  | len :: rest, m, day => if day ≤ len then (m, day) else monthDay rest (m + 1) (day - len)

/-- `(datetime(2024, 1, 1) + timedelta(days=d-1)).date().isoformat()`:
ISO date of the `d`-th day of 2024. -/
def isoDate2024 (d : Nat) : String :=
  let p := monthDay monthLengths2024 1 d
  "2024-" ++ pad2 p.1 ++ "-" ++ pad2 p.2

/-- Python `str.lower` on the ASCII names of this pipeline. -/
def strLower (s : String) : String :=
  String.mk (s.data.map Char.toLower)

/-- Python `str.replace(" ", ".")` (single-character replacement). -/
def strReplaceSpaceDot (s : String) : String :=
  String.mk (s.data.map fun c => if c == ' ' then '.' else c)

/-! ## Data Generator (`generate_ecommerce_data.py`) -/

/-- A row of `users.csv`, with the fields of the generator's user dict. -/
structure User where
  user_id : String
  name : String
  email : String
  join_date : String
  loyalty_tier : String
deriving DecidableEq

/-- A row of `products.csv`; `price` is the already-formatted text
`f"{price:.2f}"`, `in_stock` the Python int. -/
structure Product where
  product_id : String
  name : String
  category : String
  price : String
  in_stock : Nat
deriving DecidableEq

/-- A row of `orders.csv`; `quantity` is the Python int drawn from the
seeded PRNG, `order_total` the already-formatted text. -/
structure Order where
  order_id : String
  user_id : String
  product_id : String
  quantity : Nat
  order_date : String
  status : String
  order_total : String
deriving DecidableEq

/-- A row of `reviews.csv`. -/
structure Review where
  review_id : String
  order_id : String
  rating : Nat
  comment : String
  review_date : String
deriving DecidableEq

/-- A row of `payments.csv`; `amount` is copied verbatim from the order's
`order_total` text. -/
structure Payment where
  payment_id : String
  order_id : String
  amount : String
  method : String
  payment_status : String
deriving DecidableEq

/-- The fixed roster of 15 user names. -/
def namesRoster : List String :=
  ["Ava Patel", "Noah Smith", "Liam Chen", "Emma Lopez", "Mia Davis",
   "Elijah Lee", "Isabella Brown", "Sophia Wilson", "James Garcia",
   "Lucas Nguyen", "Amelia Clark", "Harper Miller", "Ethan Hernandez",
   "Oliver Johnson", "Charlotte Martinez"]

/-- The loyalty tiers, cycled by index. -/
def tiersList : List String := ["Bronze", "Silver", "Gold"]

/-- `generate_users()`: 15 users; `join_date` is `2024-01-01 + idx*3` days
(day-of-year `1 + idx*3`). -/
def generate_users : List User :=
  (List.range 15).map fun idx =>
    let name := namesRoster.getD idx ""
    { user_id := "U" ++ pad3 (idx + 1)
      name := name
      email := strReplaceSpaceDot (strLower name) ++ "@shopperhub.com"
      join_date := isoDate2024 (1 + idx * 3)
      loyalty_tier := tiersList.getD (idx % tiersList.length) "" }

/-- The fixed product fixtures `(name, category, price)`; the `float`
price literals are modelled as exact decimals. -/
def productFixtures : List (String × String × ℚ) :=
  [("Smartwatch", "Wearables", mkRat 14999 100),
   ("Noise Cancelling Headphones", "Audio", mkRat 1995 10),
   ("4K Monitor", "Displays", mkRat 329 1),
   ("Mechanical Keyboard", "Peripherals", mkRat 119 1),
   ("Gaming Mouse", "Peripherals", mkRat 59 1),
   ("Wireless Charger", "Accessories", mkRat 3999 100),
   ("Portable SSD", "Storage", mkRat 1095 10),
   ("Bluetooth Speaker", "Audio", mkRat 89 1),
   ("Fitness Tracker", "Wearables", mkRat 99 1),
   ("Smart Home Hub", "Smart Home", mkRat 129 1),
   ("Action Camera", "Cameras", mkRat 249 1),
   ("Drone Mini", "Cameras", mkRat 399 1),
   ("E-reader", "Tablets", mkRat 139 1),
   ("USB-C Hub", "Accessories", mkRat 495 10),
   ("Noise Sensor", "Smart Home", mkRat 79 1)]

/-- `generate_products()`: 15 products enumerated from 1;
`price` is `f"{price:.2f}"`, `in_stock` is `50 + idx*3`. -/
def generate_products : List Product :=
  (List.range 15).map fun idx =>
    let fx := productFixtures.getD idx ("", "", 0)
    { product_id := "P" ++ pad3 (idx + 1)
      name := fx.1
      category := fx.2.1
      price := format2f fx.2.2
      in_stock := 50 + (idx + 1) * 3 }

/-- The order statuses, cycled by index. -/
def statusesList : List String := ["Processing", "Shipped", "Delivered"]

/-- The generator's `price_lookup` dict: `product_id ↦ float(price)`. -/
def priceLookup (products : List Product) : List (String × ℚ) :=
  products.map fun p => (p.product_id, pyFloat p.price)

/-- Python dict indexing on an association list built left-to-right
(later bindings win), with a default of `0` for an absent key (absent keys
do not occur in this pipeline). -/
def dictGetQ (d : List (String × ℚ)) (k : String) : ℚ :=
  (((d.reverse.find? fun e => e.1 == k).map fun e => e.2).getD 0)

/-- A placeholder row (list indexing in this pipeline never goes out of
range, so placeholders are never selected). -/
def defaultUser : User := ⟨"", "", "", "", ""⟩

/-- Placeholder product. -/
def defaultProduct : Product := ⟨"", "", "", "", 0⟩

/-- Placeholder order. -/
def defaultOrder : Order := ⟨"", "", "", 0, "", "", ""⟩

/-- The loop of `generate_orders`: at index `idx`, pairs `users[idx]` with
`products[idx]`, draws `quantity = rng.randint(1, 4)`, dates the order
`2024-02-01 + idx` days (day-of-year `32 + idx`), cycles the status, and
formats `order_total = f"{quantity * price_lookup[product_id]:.2f}"`. -/
def generateOrdersAux (users : List User) (products : List Product)
    (pl : List (String × ℚ)) : Nat → Nat → MTState → List Order
  | 0, _, _ => []
  | c + 1, idx, rng =>
    let user := users.getD idx defaultUser
    let product := products.getD idx defaultProduct
    let p := randint 1 4 rng
    forceNat p.1 fun quantity =>
    { order_id := "O" ++ pad3 (idx + 1)
      user_id := user.user_id
      product_id := product.product_id
      quantity := quantity
      order_date := isoDate2024 (32 + idx)
      status := statusesList.getD (idx % statusesList.length) ""
      order_total := format2f (ratMul (quantity : ℚ) (dictGetQ pl product.product_id)) }
    :: generateOrdersAux users products pl c (idx + 1) p.2

/-- `generate_orders(users, products)`: 15 orders with `rng = Random(42)`. -/
def generate_orders (users : List User) (products : List Product) : List Order :=
  generateOrdersAux users products (priceLookup products) 15 0 (pythonSeedMT 42)

/-- The five review comments, cycled by index. -/
def commentsList : List String :=
  ["Great value for the price.",
   "Fast shipping and solid quality.",
   "Met my expectations.",
   "Would definitely recommend.",
   "Packaging could be better, product works fine."]

/-- The loop of `generate_reviews`: at index `idx`, reviews `orders[idx]`
with `rating = rng.randint(3, 5)`, cycling comments, dated
`2024-03-01 + idx` days (day-of-year `61 + idx`). -/
def generateReviewsAux (orders : List Order) : Nat → Nat → MTState → List Review
  | 0, _, _ => []
  | c + 1, idx, rng =>
    let order := orders.getD idx defaultOrder
    let p := randint 3 5 rng
    forceNat p.1 fun rating =>
    { review_id := "R" ++ pad3 (idx + 1)
      order_id := order.order_id
      rating := rating
      comment := commentsList.getD (idx % commentsList.length) ""
      review_date := isoDate2024 (61 + idx) }
    :: generateReviewsAux orders c (idx + 1) p.2

/-- `generate_reviews(orders)`: one review per order with `rng = Random(7)`. -/
def generate_reviews (orders : List Order) : List Review :=
  generateReviewsAux orders orders.length 0 (pythonSeedMT 7)

/-- Payment methods, cycled by index. -/
def methodsList : List String := ["Credit Card", "PayPal", "Gift Card"]

/-- Payment statuses, cycled by index. -/
def payStatusesList : List String := ["Completed", "Completed", "Pending"]

/-- `generate_payments(orders)`: one payment per order; `amount` is the
order's `order_total` text, method and status cycle by index. -/
def generate_payments (orders : List Order) : List Payment :=
  (List.range orders.length).map fun idx =>
    let order := orders.getD idx defaultOrder
    { payment_id := "PM" ++ pad3 (idx + 1)
      order_id := order.order_id
      amount := order.order_total
      method := methodsList.getD (idx % methodsList.length) ""
      payment_status := payStatusesList.getD (idx % payStatusesList.length) "" }

/-! ### CSV serialization (Python `csv` module, excel dialect) -/

/-- A CSV file as structured data: the header written by `DictWriter`
and the data rows in field order. -/
structure CSVFile where
  header : List String
  rows : List (List String)
deriving DecidableEq

/-- Whether `csv.writer` must quote a field (`QUOTE_MINIMAL`). -/
def csvNeedsQuote (s : String) : Bool :=
  s.data.any fun c => c == ',' || c == '"' || c == '\n' || c == '\r'

/-- Doubles the quotes inside a quoted field. -/
def csvEscape (s : String) : String :=
  String.mk (s.data.foldr (fun c acc => if c == '"' then '"' :: '"' :: acc else c :: acc) [])

/-- One serialized CSV field. -/
def csvField (s : String) : String :=
  if csvNeedsQuote s then "\"" ++ csvEscape s ++ "\"" else s

/-- One serialized CSV record with the excel dialect's CRLF terminator. -/
def csvLine (fields : List String) : String :=
  String.intercalate "," (fields.map csvField) ++ "\r\n"

/-- `write_csv`: the full byte content of a CSV file (header, then rows). -/
def csvContent (file : CSVFile) : String :=
  csvLine file.header ++ String.join (file.rows.map csvLine)

/-- The `fieldnames` of `users.csv` as passed to `write_csv`. -/
def usersFieldnames : List String :=
  ["user_id", "name", "email", "join_date", "loyalty_tier"]

/-- The `fieldnames` of `products.csv`. -/
def productsFieldnames : List String :=
  ["product_id", "name", "category", "price", "in_stock"]

/-- The `fieldnames` of `orders.csv`. -/
def ordersFieldnames : List String :=
  ["order_id", "user_id", "product_id", "quantity", "order_date", "status", "order_total"]

/-- The `fieldnames` of `reviews.csv`. -/
def reviewsFieldnames : List String :=
  ["review_id", "order_id", "rating", "comment", "review_date"]

/-- The `fieldnames` of `payments.csv`. -/
def paymentsFieldnames : List String :=
  ["payment_id", "order_id", "amount", "method", "payment_status"]

/-- A user dict as `DictWriter` serializes it (`str()` of each field in
fieldname order). -/
def userRow (u : User) : List String :=
  [u.user_id, u.name, u.email, u.join_date, u.loyalty_tier]

/-- A product dict serialized in fieldname order. -/
def productRow (p : Product) : List String :=
  [p.product_id, p.name, p.category, p.price, toString p.in_stock]

/-- An order dict serialized in fieldname order. -/
def orderRow (o : Order) : List String :=
  [o.order_id, o.user_id, o.product_id, toString o.quantity, o.order_date, o.status, o.order_total]

/-- A review dict serialized in fieldname order. -/
def reviewRow (r : Review) : List String :=
  [r.review_id, r.order_id, toString r.rating, r.comment, r.review_date]

/-- A payment dict serialized in fieldname order. -/
def paymentRow (p : Payment) : List String :=
  [p.payment_id, p.order_id, p.amount, p.method, p.payment_status]

/-- The environment a process run could observe (OS entropy, as consulted
by `random.Random(None)`); this program never reads any of it, as every
`Random` instance is constructed with an explicit seed. -/
structure ExternalInput where
  osEntropy : Nat → Nat

/-- The generator `main()`: the five CSV files it writes, as structured
data, in write order. -/
def generatorFiles : List (String × CSVFile) :=
  let users := generate_users
  let products := generate_products
  let orders := generate_orders users products
  let reviews := generate_reviews orders
  let payments := generate_payments orders
  [("users.csv", ⟨usersFieldnames, users.map userRow⟩),
   ("products.csv", ⟨productsFieldnames, products.map productRow⟩),
   ("orders.csv", ⟨ordersFieldnames, orders.map orderRow⟩),
   ("reviews.csv", ⟨reviewsFieldnames, reviews.map reviewRow⟩),
   ("payments.csv", ⟨paymentsFieldnames, payments.map paymentRow⟩)]

/-- A full generator run observing environment `e`: the filename/byte-content
pairs written to the data directory.  The run never consults `e` (all seeds
and fixtures are fixed constants in the source). -/
def generatorRun (_e : ExternalInput) : List (String × String) :=
  generatorFiles.map fun f => (f.1, csvContent f.2)

/-! ## Loader (`load_csv_to_sqlite.py`) -/

/-- An SQLite storage-class value as it appears in a table cell or a query
result. -/
inductive SqlValue where
  | null
  | int (n : Int)
  | real (q : ℚ)
  | text (s : String)
deriving DecidableEq

/-- `FIELD_CONVERTERS`: the static column-name → conversion-function map
(`float` for price, order_total, amount; `int` for in_stock, quantity,
rating), in the source's entry order. -/
def FIELD_CONVERTERS : List (String × (String → SqlValue)) :=
  [("price", fun v => SqlValue.real (pyFloat v)),
   ("in_stock", fun v => SqlValue.int (pyInt v)),
   ("quantity", fun v => SqlValue.int (pyInt v)),
   ("order_total", fun v => SqlValue.real (pyFloat v)),
   ("rating", fun v => SqlValue.int (pyInt v)),
   ("amount", fun v => SqlValue.real (pyFloat v))]

/-- One cell of `load_csv`'s row processing:
`converter = FIELD_CONVERTERS.get(key); converter(value) if converter else value`. -/
def convertField (key value : String) : SqlValue :=
  match FIELD_CONVERTERS.find? fun e => e.1 == key with
  | some e => e.2 value
  | none => SqlValue.text value

/-- `load_csv`: `csv.DictReader` pairs each data row with the header, and
every cell is passed through the converter map keyed by its column name. -/
def load_csv (file : CSVFile) : List (List (String × SqlValue)) :=
  file.rows.map fun r => (file.header.zip r).map fun kv => (kv.1, convertField kv.1 kv.2)

/-- One entry of `TABLE_CONFIG`; the `CREATE TABLE` DDL string is encoded
as data: `columns` in declaration order, `pkIndex` the `PRIMARY KEY`
column's position, `notNull` the positions carrying `NOT NULL`, and `fks`
the `FOREIGN KEY (col) REFERENCES parent(col)` clauses as
(column index, parent table, parent column index). -/
structure TableConfig where
  name : String
  csv : String
  columns : List String
  pkIndex : Nat
  notNull : List Nat
  fks : List (Nat × String × Nat)

/-- `TABLE_CONFIG`: the five tables in forward dependency order, with the
schema of the source's DDL strings. -/
def TABLE_CONFIG : List TableConfig :=
  [{ name := "users", csv := "users.csv",
     columns := usersFieldnames, pkIndex := 0, notNull := [1, 2, 3, 4], fks := [] },
   { name := "products", csv := "products.csv",
     columns := productsFieldnames, pkIndex := 0, notNull := [1, 2, 3, 4], fks := [] },
   { name := "orders", csv := "orders.csv",
     columns := ordersFieldnames, pkIndex := 0, notNull := [1, 2, 3, 4, 5, 6],
     fks := [(1, "users", 0), (2, "products", 0)] },
   { name := "reviews", csv := "reviews.csv",
     columns := reviewsFieldnames, pkIndex := 0, notNull := [1, 2, 3, 4],
     fks := [(1, "orders", 0)] },
   { name := "payments", csv := "payments.csv",
     columns := paymentsFieldnames, pkIndex := 0, notNull := [1, 2, 3, 4],
     fks := [(1, "orders", 0)] }]

/-- A database operation issued by `reset_tables`, for reasoning about the
order of schema changes. -/
inductive DBOp where
  | pragmaForeignKeys (enabled : Bool)
  | dropTable (name : String)
  | commit
  | createTable (name : String) (references : List String)
deriving DecidableEq

/-- The operation sequence of `reset_tables`: `PRAGMA foreign_keys = OFF`,
`DROP TABLE IF EXISTS` for each table in reversed `TABLE_CONFIG` order, a
commit, `PRAGMA foreign_keys = ON`, the `CREATE TABLE` script in
`TABLE_CONFIG` order, and a final commit. -/
def resetTablesTrace : List DBOp :=
  [DBOp.pragmaForeignKeys false]
  ++ ((TABLE_CONFIG.map fun c => c.name).reverse.map DBOp.dropTable)
  ++ [DBOp.commit, DBOp.pragmaForeignKeys true]
  ++ (TABLE_CONFIG.map fun c => DBOp.createTable c.name (c.fks.map fun f => f.2.1))
  ++ [DBOp.commit]

/-- Checks that along a trace every `createTable` only references tables
created earlier in the trace (the accumulator holds the created names). -/
def createRespectsDepsFrom : List DBOp → List String → Bool
  | [], _ => true
  | DBOp.createTable n refs :: rest, created =>
    refs.all (fun t => created.contains t) && createRespectsDepsFrom rest (n :: created)
  | _ :: rest, created => createRespectsDepsFrom rest created

/-- A referencing table is never created before its referenced tables. -/
def createRespectsDeps (trace : List DBOp) : Bool :=
  createRespectsDepsFrom trace []

/-- The database: one list of rows (cells in column order) per table. -/
structure DB where
  users : List (List SqlValue)
  products : List (List SqlValue)
  orders : List (List SqlValue)
  reviews : List (List SqlValue)
  payments : List (List SqlValue)
deriving DecidableEq

/-- The empty database. -/
def emptyDB : DB := ⟨[], [], [], [], []⟩

/-- The rows of table `n`. -/
def DB.table (db : DB) (n : String) : List (List SqlValue) :=
  if n == "users" then db.users
  else if n == "products" then db.products
  else if n == "orders" then db.orders
  else if n == "reviews" then db.reviews
  else if n == "payments" then db.payments
  else []

/-- Replaces the rows of table `n`. -/
def DB.setTable (db : DB) (n : String) (rows : List (List SqlValue)) : DB :=
  if n == "users" then { db with users := rows }
  else if n == "products" then { db with products := rows }
  else if n == "orders" then { db with orders := rows }
  else if n == "reviews" then { db with reviews := rows }
  else if n == "payments" then { db with payments := rows }
  else db

/-- `reset_tables`: after dropping all five tables and re-running the fixed
DDL, every table exists and is empty. -/
def reset_tables (_db : DB) : DB := emptyDB

/-- Cell `i` of a row (`NULL` beyond the end; rows always have full width
in this pipeline). -/
def cellAt (row : List SqlValue) (i : Nat) : SqlValue :=
  row.getD i SqlValue.null

/-- SQLite `=` comparison: `NULL` compares equal to nothing, numeric
storage classes compare by value, text by codepoints, and values of
different classes are unequal. -/
def sqlEqB : SqlValue → SqlValue → Bool
  | SqlValue.int a, SqlValue.int b => a == b
  | SqlValue.int a, SqlValue.real b => (a : ℚ) == b
  | SqlValue.real a, SqlValue.int b => a == (b : ℚ)
  | SqlValue.real a, SqlValue.real b => a == b
  | SqlValue.text a, SqlValue.text b => a == b
  | _, _ => false

/-- SQLite's `PRIMARY KEY` uniqueness check for an incoming row (a `NULL`
key is admitted, matching SQLite's non-`INTEGER` primary-key quirk). -/
def pkOk (existing : List (List SqlValue)) (pkIndex : Nat) (row : List SqlValue) : Bool :=
  match cellAt row pkIndex with
  | SqlValue.null => true
  | v => existing.all fun r => !sqlEqB (cellAt r pkIndex) v

/-- SQLite's foreign-key check (enforcement is ON during inserts): a
non-`NULL` child value must occur in the parent column. -/
def fkOk (db : DB) (row : List SqlValue) (fk : Nat × String × Nat) : Bool :=
  match cellAt row fk.1 with
  | SqlValue.null => true
  | v => (db.table fk.2.1).any fun parent => sqlEqB (cellAt parent fk.2.2) v

/-- SQLite's `NOT NULL` check on the declared columns. -/
def notNullOk (cfg : TableConfig) (row : List SqlValue) : Bool :=
  cfg.notNull.all fun i =>
    match cellAt row i with
    | SqlValue.null => false
    | _ => true

/-- `conn.executemany` of the table's `INSERT`: appends rows in CSV order,
enforcing the primary-key, `NOT NULL` and foreign-key constraints row by
row; a violation raises (`Except.error`) and the batch is not committed. -/
def insertRows (db : DB) (cfg : TableConfig) : List (List SqlValue) → Except String DB
  | [] => Except.ok db
  | row :: rest =>
    let existing := db.table cfg.name
    if pkOk existing cfg.pkIndex row && notNullOk cfg row && cfg.fks.all (fkOk db row) then
      insertRows (db.setTable cfg.name (existing ++ [row])) cfg rest
    else
      Except.error ("IntegrityError: " ++ cfg.name)

/-- `insert_rows`'s row projection
`[[row[col] for col in columns] for row in rows]` (keys are always present
in this pipeline). -/
def projectCols (columns : List String) (row : List (String × SqlValue)) : List SqlValue :=
  columns.map fun c => (((row.find? fun kv => kv.1 == c).map fun kv => kv.2).getD SqlValue.null)

/-- What the Loader process can observe of the filesystem: whether the
data directory exists and, for each CSV filename, its content. -/
structure LoaderInput where
  dataDirExists : Bool
  files : List (String × CSVFile)

/-- Looks a CSV file up in the data directory. -/
def findFile (files : List (String × CSVFile)) (name : String) : Option CSVFile :=
  (files.find? fun e => e.1 == name).map fun e => e.2

/-- The per-table loop of the Loader `main`: `load_csv` then `insert_rows`,
committing after each table.  An absent file raises `FileNotFoundError`,
an insert violation raises; either way the loop stops and the uncommitted
current table is rolled back, keeping the database state reached so far. -/
def loadTables (inp : LoaderInput) : List TableConfig → DB → DB × Option String
  | [], db => (db, none)
  | cfg :: rest, db =>
    match findFile inp.files cfg.csv with
    | none => (db, some ("Missing CSV file: " ++ cfg.csv))
    | some file =>
      match insertRows db cfg ((load_csv file).map (projectCols cfg.columns)) with
      | Except.error e => (db, some e)
      | Except.ok db2 => loadTables inp rest db2

/-- The Loader `main()` acting on database state `db0`: it first checks the
data directory and raises `FileNotFoundError` *before* opening the database
or touching any table; otherwise it resets the schema and bulk-loads each
table in `TABLE_CONFIG` order.  Returns the final database state and the
error message, if any. -/
def loaderMain (inp : LoaderInput) (db0 : DB) : DB × Option String :=
  if inp.dataDirExists = false then
    (db0, some "Data directory not found")
  else
    loadTables inp TABLE_CONFIG (reset_tables db0)

/-! ## Reporter (`order_summary_report.py`) -/

/-- SQL inner join: every pairing of a left row with a matching right row. -/
def innerJoin (left : List α) (right : List β) (cond : α → β → Bool) : List (α × β) :=
  left.flatMap fun a => (right.filter (cond a)).map fun b => (a, b)

/-- SQL left outer join: a left row with no match survives once, paired
with `none` (`NULL`s); otherwise it pairs with each match. -/
def leftJoin (left : List α) (right : List β) (cond : α → β → Bool) : List (α × Option β) :=
  left.flatMap fun a =>
    if (right.filter (cond a)).isEmpty then [(a, none)]
    else (right.filter (cond a)).map fun b => (a, some b)

/-- One result row of the `QUERY`'s `FROM`/`JOIN` clause, before `ORDER BY`
and `SELECT`: the participating orders/users/products rows and the
optional reviews/payments rows. -/
structure JRow where
  o : List SqlValue
  u : List SqlValue
  p : List SqlValue
  r : Option (List SqlValue)
  pay : Option (List SqlValue)
deriving DecidableEq

/-- `QUERY`'s join clause: `orders JOIN users ON u.user_id = o.user_id
JOIN products ON pr.product_id = o.product_id LEFT JOIN reviews ON
r.order_id = o.order_id LEFT JOIN payments ON pay.order_id = o.order_id`.
Column positions follow the tables' DDL: `o.order_id = o[0]`,
`o.user_id = o[1]`, `o.product_id = o[2]`, `o.order_date = o[4]`,
`u.user_id = u[0]`, `u.name = u[1]`, `pr.product_id = p[0]`,
`pr.name = p[1]`, `r.order_id = r[1]`, `r.rating = r[2]`,
`pay.order_id = pay[1]`, `pay.payment_status = pay[4]`. -/
def joinRows (db : DB) : List JRow :=
  let j1 := innerJoin db.orders db.users fun o u => sqlEqB (cellAt u 0) (cellAt o 1)
  let j2 := innerJoin j1 db.products fun ou pr => sqlEqB (cellAt pr 0) (cellAt ou.1 2)
  let j3 := leftJoin j2 db.reviews fun oup r => sqlEqB (cellAt r 1) (cellAt oup.1.1 0)
  let j4 := leftJoin j3 db.payments fun x pay => sqlEqB (cellAt pay 1) (cellAt x.1.1.1 0)
  j4.map fun x => ⟨x.1.1.1.1, x.1.1.1.2, x.1.1.2, x.1.2, x.2⟩

/-- The SQLite ordering rank of a storage class:
`NULL < (INTEGER ~ REAL) < TEXT`. -/
def sqlRank : SqlValue → Nat
  | SqlValue.null => 0
  | SqlValue.int _ => 1
  | SqlValue.real _ => 1
  | SqlValue.text _ => 2

/-- The numeric value used to order `INTEGER`/`REAL` cells. -/
def sqlNumKey : SqlValue → ℚ
  | SqlValue.int n => (n : ℚ)
  | SqlValue.real q => q
  | _ => 0

/-- The string value used to order `TEXT` cells. -/
def sqlStrKey : SqlValue → String
  | SqlValue.text s => s
  | _ => ""

/-- Three-way comparison of naturals. -/
def natCmp (a b : Nat) : Ordering :=
  if a < b then Ordering.lt else if b < a then Ordering.gt else Ordering.eq

/-- Three-way comparison of rationals (via the executable `Rat.blt`). -/
def ratCmp (a b : ℚ) : Ordering :=
  if a.blt b then Ordering.lt else if b.blt a then Ordering.gt else Ordering.eq

/-- Lexicographic (codepoint, hence UTF-8 byte = SQLite `BINARY`)
comparison of character lists. -/
def charListCmp : List Char → List Char → Ordering
  | [], [] => Ordering.eq
  | [], _ :: _ => Ordering.lt
  | _ :: _, [] => Ordering.gt
  | a :: as, b :: bs =>
    match natCmp a.toNat b.toNat with
    | Ordering.eq => charListCmp as bs
    | o => o

/-- SQLite `BINARY` collation on text. -/
def strCmp (a b : String) : Ordering :=
  charListCmp a.data b.data

/-- Lexicographic composition of comparators on a pair. -/
def pairCmp (f : α → α → Ordering) (g : β → β → Ordering) (x y : α × β) : Ordering :=
  match f x.1 y.1 with
  | Ordering.eq => g x.2 y.2
  | o => o

/-- The SQLite `ORDER BY` key of one cell: class rank, then numeric value,
then text. -/
def sqlTriple (v : SqlValue) : Nat × ℚ × String :=
  (sqlRank v, sqlNumKey v, sqlStrKey v)

/-- Comparator of cell keys, lexicographically. -/
def tripleCmp : Nat × ℚ × String → Nat × ℚ × String → Ordering :=
  pairCmp natCmp (pairCmp ratCmp strCmp)

/-- The `ORDER BY o.order_date, o.order_id` key of a joined row. -/
def jrowKey (x : JRow) : (Nat × ℚ × String) × (Nat × ℚ × String) :=
  (sqlTriple (cellAt x.o 4), sqlTriple (cellAt x.o 0))

/-- Three-way comparison of joined rows by `(o.order_date, o.order_id)`
in SQLite value order. -/
def jrowCmp (a b : JRow) : Ordering :=
  pairCmp tripleCmp tripleCmp (jrowKey a) (jrowKey b)

/-- `ORDER BY o.order_date, o.order_id` ascending, as a total preorder on
joined rows. -/
def jrowLe (a b : JRow) : Prop :=
  jrowCmp a b ≠ Ordering.gt

instance : DecidableRel jrowLe :=
  fun a b => inferInstanceAs (Decidable (jrowCmp a b ≠ Ordering.gt))

/-- Lawfulness of a three-way comparator: opposite arguments give the
mirrored answer, strict outcomes chain, and `eq` only relates equal
values. -/
structure LawfulCmp (f : α → α → Ordering) : Prop where
  swap_eq : ∀ a b, f b a = (f a b).swap
  lt_trans : ∀ a b c, f a b = Ordering.lt → f b c = Ordering.lt → f a c = Ordering.lt
  eq_iff : ∀ a b, f a b = Ordering.eq → a = b

/-- The join result in `ORDER BY` order (the key is total, so sorting is
a faithful model of SQLite's sort; all keys are distinct in any run of
this pipeline, making the order unique). -/
def sortedJoinRows (db : DB) : List JRow :=
  List.insertionSort jrowLe (joinRows db)

/-- The `SELECT` clause: `u.name, pr.name, o.order_date, r.rating,
pay.payment_status`, with `NULL` for the rating/status of an order
without a review/payment. -/
def projectR (x : JRow) : List SqlValue :=
  [cellAt x.u 1, cellAt x.p 1, cellAt x.o 4,
   (match x.r with | none => SqlValue.null | some r => cellAt r 2),
   (match x.pay with | none => SqlValue.null | some pay => cellAt pay 4)]

/-- `fetch_order_summary` on a database state: all rows of `QUERY`. -/
def fetch_order_summary (db : DB) : List (List SqlValue) :=
  (sortedJoinRows db).map projectR

/-- The fixed header of `order_summary.csv`. -/
def summaryHeaders : List String :=
  ["user_name", "product_name", "order_date", "review_rating", "payment_status"]

/-- How `csv.writer` renders a fetched cell: `None` becomes the empty
field, integers and text print as themselves.  (`REAL` cells never reach
`write_summary` in this pipeline; their rendering here is schematic.) -/
def sqlCellStr : SqlValue → String
  | SqlValue.null => ""
  | SqlValue.int n => toString n
  | SqlValue.real q => toString q.num ++ (if q.den == 1 then ".0" else "/" ++ toString q.den)
  | SqlValue.text s => s

/-- `write_summary`: the records of `order_summary.csv` — the fixed
header, then the fetched rows in order. -/
def write_summary (rows : List (List SqlValue)) : List (List String) :=
  summaryHeaders :: rows.map fun r => r.map sqlCellStr

/-! ## Concrete pipeline runs and inputs used by the verification -/

/-- The price of the product carrying a given `product_id` (the value the
spec's `price_of(product_id)` denotes), as the number `float(price)`. -/
def productPrice (products : List Product) (pid : String) : ℚ :=
  (((products.find? fun p => p.product_id == pid).map fun p => pyFloat p.price).getD 0)

/-- The Loader's input after a Generator run: the data directory exists
and holds exactly the five generated CSV files. -/
def genLoaderInput : LoaderInput := ⟨true, generatorFiles⟩

/-- The database the Loader builds from the generated CSV files. -/
def genDB : DB := (loaderMain genLoaderInput emptyDB).1

/-- A loadable CSV set in which one order has two reviews: legal for the
Loader (distinct review primary keys, valid foreign keys), and a witness
that left joins can duplicate an order in the report. -/
def twoReviewInput : LoaderInput :=
  ⟨true,
   [("users.csv", ⟨usersFieldnames,
      [["U1", "Ann Lee", "ann.lee@shopperhub.com", "2024-01-01", "Bronze"]]⟩),
    ("products.csv", ⟨productsFieldnames,
      [["P1", "Widget", "Misc", "1.00", "5"]]⟩),
    ("orders.csv", ⟨ordersFieldnames,
      [["O1", "U1", "P1", "1", "2024-02-01", "Processing", "1.00"]]⟩),
    ("reviews.csv", ⟨reviewsFieldnames,
      [["R1", "O1", "4", "Nice.", "2024-03-01"],
       ["R2", "O1", "5", "Still nice.", "2024-03-02"]]⟩),
    ("payments.csv", ⟨paymentsFieldnames, []⟩)]⟩

/-- The database loaded from `twoReviewInput`. -/
def twoReviewDB : DB := (loaderMain twoReviewInput emptyDB).1

/-- A small database with one order, a matching user and product, and no
reviews or payments. -/
def oneOrderDB : DB :=
  { users := [[SqlValue.text "U1", SqlValue.text "Ann Lee",
               SqlValue.text "ann.lee@shopperhub.com", SqlValue.text "2024-01-01",
               SqlValue.text "Bronze"]],
    products := [[SqlValue.text "P1", SqlValue.text "Widget", SqlValue.text "Misc",
                  SqlValue.real (mkRat 1 1), SqlValue.int 5]],
    orders := [[SqlValue.text "O1", SqlValue.text "U1", SqlValue.text "P1",
                SqlValue.int 1, SqlValue.text "2024-02-01", SqlValue.text "Processing",
                SqlValue.real (mkRat 1 1)]],
    reviews := [],
    payments := [] }

/-! ## Supporting lemmas -/

theorem forceNat_eq (n : Nat) (k : Nat → α) : forceNat n k = k n := by
  cases n <;> rfl

theorem ratMul_eq (a b : ℚ) : ratMul a b = a * b := by
  rw [ratMul, Rat.mul_eq_mkRat]

theorem natCmp_lawful : LawfulCmp natCmp := by
  refine ⟨?_, ?_, ?_⟩
  · intro a b
    unfold natCmp
    by_cases h1 : a < b
    · simp [h1, Nat.lt_asymm h1, Ordering.swap]
    · by_cases h2 : b < a
      · simp [h1, h2, Ordering.swap]
      · simp [h1, h2, Ordering.swap]
  · intro a b c hab hbc
    unfold natCmp at *
    have h1 : a < b := by
      by_cases h : a < b
      · exact h
      · by_cases h2 : b < a <;> simp [h, h2] at hab
    have h2 : b < c := by
      by_cases h : b < c
      · exact h
      · by_cases h3 : c < b <;> simp [h, h3] at hbc
    simp [Nat.lt_trans h1 h2]
  · intro a b h
    unfold natCmp at h
    by_cases h1 : a < b
    · simp [h1] at h
    · by_cases h2 : b < a
      · simp [h1, h2] at h
      · omega

theorem ratCmp_lawful : LawfulCmp ratCmp := by
  have bltlt : ∀ a b : ℚ, (a.blt b = true) = (a < b) := fun _ _ => rfl
  refine ⟨?_, ?_, ?_⟩
  · intro a b
    unfold ratCmp
    by_cases h1 : a.blt b = true
    · have h2 : ¬ b.blt a = true := by rw [bltlt] at *; exact lt_asymm h1
      simp [h1, h2, Ordering.swap]
    · by_cases h2 : b.blt a = true
      · simp [h1, h2, Ordering.swap]
      · simp [h1, h2, Ordering.swap]
  · intro a b c hab hbc
    unfold ratCmp at *
    have h1 : a.blt b = true := by
      by_cases h : a.blt b = true
      · exact h
      · by_cases h2 : b.blt a = true <;> simp [h, h2] at hab
    have h2 : b.blt c = true := by
      by_cases h : b.blt c = true
      · exact h
      · by_cases h3 : c.blt b = true <;> simp [h, h3] at hbc
    have h3 : a.blt c = true := by rw [bltlt] at *; exact lt_trans h1 h2
    simp [h3]
  · intro a b h
    unfold ratCmp at h
    by_cases h1 : a.blt b = true
    · simp [h1] at h
    · by_cases h2 : b.blt a = true
      · simp [h1, h2] at h
      · rw [bltlt] at h1 h2
        exact le_antisymm (not_lt.mp h2) (not_lt.mp h1)

theorem charToNat_injective {a b : Char} (h : a.toNat = b.toNat) : a = b :=
  Char.eq_of_val_eq (UInt32.ext h)

theorem charListCmp_swap : ∀ a b : List Char, charListCmp b a = (charListCmp a b).swap
  | [], [] => rfl
  | [], _ :: _ => rfl
  | _ :: _, [] => rfl
  | a :: as, b :: bs => by
    unfold charListCmp
    have hsw := natCmp_lawful.swap_eq a.toNat b.toNat
    cases h : natCmp a.toNat b.toNat with
    | lt => rw [h] at hsw; rw [hsw]; rfl
    | eq => rw [h] at hsw; rw [hsw]; exact charListCmp_swap as bs
    | gt => rw [h] at hsw; rw [hsw]; rfl

theorem charListCmp_lt_trans : ∀ a b c : List Char,
    charListCmp a b = Ordering.lt → charListCmp b c = Ordering.lt →
    charListCmp a c = Ordering.lt
  | [], [], _, hab, _ => by cases hab
  | [], _ :: _, [], _, hbc => by cases hbc
  | [], _ :: _, _ :: _, _, _ => rfl
  | _ :: _, [], _, hab, _ => by cases hab
  | _ :: _, _ :: _, [], _, hbc => by cases hbc
  | a :: as, b :: bs, c :: cs, hab, hbc => by
    unfold charListCmp at hab hbc ⊢
    cases h1 : natCmp a.toNat b.toNat with
    | lt =>
      cases h2 : natCmp b.toNat c.toNat with
      | lt => rw [natCmp_lawful.lt_trans a.toNat b.toNat c.toNat h1 h2]
      | eq => rw [← natCmp_lawful.eq_iff b.toNat c.toNat h2, h1]
      | gt => rw [h2] at hbc; cases hbc
    | eq =>
      have hb := natCmp_lawful.eq_iff a.toNat b.toNat h1
      rw [h1] at hab
      cases h2 : natCmp b.toNat c.toNat with
      | lt => rw [hb, h2]
      | eq =>
        rw [h2] at hbc
        rw [hb, h2]
        exact charListCmp_lt_trans as bs cs hab hbc
      | gt => rw [h2] at hbc; cases hbc
    | gt => rw [h1] at hab; cases hab

theorem charListCmp_eq : ∀ a b : List Char, charListCmp a b = Ordering.eq → a = b
  | [], [], _ => rfl
  | [], _ :: _, h => by cases h
  | _ :: _, [], h => by cases h
  | a :: as, b :: bs, h => by
    unfold charListCmp at h
    cases h1 : natCmp a.toNat b.toNat with
    | lt => rw [h1] at h; cases h
    | eq =>
      rw [h1] at h
      rw [charToNat_injective (natCmp_lawful.eq_iff a.toNat b.toNat h1),
          charListCmp_eq as bs h]
    | gt => rw [h1] at h; cases h

theorem strCmp_lawful : LawfulCmp strCmp := by
  refine ⟨?_, ?_, ?_⟩
  · intro a b
    exact charListCmp_swap a.data b.data
  · intro a b c hab hbc
    exact charListCmp_lt_trans a.data b.data c.data hab hbc
  · intro a b h
    cases a
    cases b
    exact congrArg String.mk (charListCmp_eq _ _ h)

theorem pairCmp_lawful {f : α → α → Ordering} {g : β → β → Ordering}
    (hf : LawfulCmp f) (hg : LawfulCmp g) : LawfulCmp (pairCmp f g) := by
  refine ⟨?_, ?_, ?_⟩
  · intro x y
    unfold pairCmp
    have hsw := hf.swap_eq x.1 y.1
    cases h : f x.1 y.1 with
    | lt => rw [h] at hsw; rw [hsw]; rfl
    | eq => rw [h] at hsw; rw [hsw]; exact hg.swap_eq x.2 y.2
    | gt => rw [h] at hsw; rw [hsw]; rfl
  · intro x y z hxy hyz
    unfold pairCmp at hxy hyz ⊢
    cases h1 : f x.1 y.1 with
    | lt =>
      cases h2 : f y.1 z.1 with
      | lt => rw [hf.lt_trans x.1 y.1 z.1 h1 h2]
      | eq => rw [← hf.eq_iff y.1 z.1 h2, h1]
      | gt => rw [h2] at hyz; cases hyz
    | eq =>
      have e := hf.eq_iff x.1 y.1 h1
      rw [h1] at hxy
      cases h2 : f y.1 z.1 with
      | lt => rw [e, h2]
      | eq =>
        rw [h2] at hyz
        rw [e, h2]
        exact hg.lt_trans x.2 y.2 z.2 hxy hyz
      | gt => rw [h2] at hyz; cases hyz
    | gt => rw [h1] at hxy; cases hxy
  · intro x y h
    unfold pairCmp at h
    cases h1 : f x.1 y.1 with
    | lt => rw [h1] at h; cases h
    | eq =>
      rw [h1] at h
      have e1 := hf.eq_iff x.1 y.1 h1
      have e2 := hg.eq_iff x.2 y.2 h
      calc x = (x.1, x.2) := rfl
        _ = (y.1, y.2) := by rw [e1, e2]
        _ = y := rfl
    | gt => rw [h1] at h; cases h

theorem tripleCmp_lawful : LawfulCmp tripleCmp :=
  pairCmp_lawful natCmp_lawful (pairCmp_lawful ratCmp_lawful strCmp_lawful)

theorem keyCmp_lawful : LawfulCmp (pairCmp tripleCmp tripleCmp) :=
  pairCmp_lawful tripleCmp_lawful tripleCmp_lawful

theorem jrowLe_total : ∀ a b : JRow, jrowLe a b ∨ jrowLe b a := by
  intro a b
  unfold jrowLe jrowCmp
  have hsw := keyCmp_lawful.swap_eq (jrowKey a) (jrowKey b)
  cases h : pairCmp tripleCmp tripleCmp (jrowKey a) (jrowKey b) with
  | lt => exact Or.inl (by decide)
  | eq => exact Or.inl (by decide)
  | gt =>
    rw [h] at hsw
    exact Or.inr (by rw [hsw]; decide)

theorem jrowLe_trans : ∀ a b c : JRow, jrowLe a b → jrowLe b c → jrowLe a c := by
  intro a b c hab hbc
  unfold jrowLe jrowCmp at hab hbc ⊢
  cases h1 : pairCmp tripleCmp tripleCmp (jrowKey a) (jrowKey b) with
  | lt =>
    cases h2 : pairCmp tripleCmp tripleCmp (jrowKey b) (jrowKey c) with
    | lt =>
      rw [keyCmp_lawful.lt_trans (jrowKey a) (jrowKey b) (jrowKey c) h1 h2]
      decide
    | eq =>
      rw [← keyCmp_lawful.eq_iff (jrowKey b) (jrowKey c) h2, h1]
      decide
    | gt => rw [h2] at hbc; exact absurd rfl hbc
  | eq =>
    rw [keyCmp_lawful.eq_iff (jrowKey a) (jrowKey b) h1]
    exact hbc
  | gt => rw [h1] at hab; exact absurd rfl hab

theorem length_innerJoin (r : List β) (c : α → β → Bool) :
    ∀ l : List α, (innerJoin l r c).length = (l.map fun a => (r.filter (c a)).length).sum
  | [] => rfl
  | a :: t => by
    unfold innerJoin
    rw [List.flatMap_cons, List.length_append, List.length_map, List.map_cons, List.sum_cons]
    have ih := length_innerJoin r c t
    unfold innerJoin at ih
    rw [ih]

theorem length_leftJoin (r : List β) (c : α → β → Bool) :
    ∀ l : List α, (leftJoin l r c).length = (l.map fun a => max 1 (r.filter (c a)).length).sum
  | [] => rfl
  | a :: t => by
    unfold leftJoin
    rw [List.flatMap_cons, List.length_append, List.map_cons, List.sum_cons]
    have ih := length_leftJoin r c t
    unfold leftJoin at ih
    rw [ih]
    by_cases hi : (r.filter (c a)).isEmpty = true
    · rw [if_pos hi]
      rw [List.isEmpty_iff] at hi
      rw [hi]
      rfl
    · rw [if_neg hi, List.length_map]
      rw [List.isEmpty_iff] at hi
      have hn : (r.filter (c a)).length ≠ 0 := by
        intro h0
        exact hi (List.length_eq_zero.mp h0)
      omega

theorem sum_map_ones (l : List α) (f : α → Nat) (h : ∀ a ∈ l, f a = 1) :
    (l.map f).sum = l.length := by
  induction l with
  | nil => rfl
  | cons a t ih =>
    rw [List.map_cons, List.sum_cons, h a (List.mem_cons_self a t),
        ih fun b hb => h b (List.mem_cons_of_mem a hb), List.length_cons]
    omega

theorem mem_innerJoin_fst {l : List α} {r : List β} {c : α → β → Bool} {x : α × β}
    (hx : x ∈ innerJoin l r c) : x.1 ∈ l := by
  unfold innerJoin at hx
  rw [List.mem_flatMap] at hx
  obtain ⟨a, ha, hx⟩ := hx
  rw [List.mem_map] at hx
  obtain ⟨b, _, rfl⟩ := hx
  exact ha

theorem mem_leftJoin_fst {l : List α} {r : List β} {c : α → β → Bool} {x : α × Option β}
    (hx : x ∈ leftJoin l r c) : x.1 ∈ l := by
  unfold leftJoin at hx
  rw [List.mem_flatMap] at hx
  obtain ⟨a, ha, hx⟩ := hx
  by_cases hi : (r.filter (c a)).isEmpty = true
  · rw [if_pos hi, List.mem_singleton] at hx
    subst hx
    exact ha
  · rw [if_neg hi, List.mem_map] at hx
    obtain ⟨b, _, rfl⟩ := hx
    exact ha

theorem leftJoin_none_of_no_match {l : List α} {r : List β} {c : α → β → Bool}
    {x : α × Option β} (hx : x ∈ leftJoin l r c) (h : r.filter (c x.1) = []) :
    x.2 = none := by
  unfold leftJoin at hx
  rw [List.mem_flatMap] at hx
  obtain ⟨a, ha, hx⟩ := hx
  by_cases hi : (r.filter (c a)).isEmpty = true
  · rw [if_pos hi, List.mem_singleton] at hx
    subst hx
    rfl
  · rw [if_neg hi, List.mem_map] at hx
    obtain ⟨b, hb, rfl⟩ := hx
    have he : r.filter (c a) = [] := h
    rw [he] at hb
    cases hb

theorem convertField_price (v : String) : convertField "price" v = SqlValue.real (pyFloat v) := rfl

theorem convertField_amount (v : String) : convertField "amount" v = SqlValue.real (pyFloat v) := rfl

theorem convertField_order_total (v : String) :
    convertField "order_total" v = SqlValue.real (pyFloat v) := rfl

theorem convertField_in_stock (v : String) :
    convertField "in_stock" v = SqlValue.int (pyInt v) := rfl

theorem convertField_quantity (v : String) :
    convertField "quantity" v = SqlValue.int (pyInt v) := rfl

theorem convertField_rating (v : String) : convertField "rating" v = SqlValue.int (pyInt v) := rfl

theorem convertField_other (k v : String)
    (h1 : k ≠ "price") (h2 : k ≠ "amount") (h3 : k ≠ "order_total")
    (h4 : k ≠ "in_stock") (h5 : k ≠ "quantity") (h6 : k ≠ "rating") :
    convertField k v = SqlValue.text v := by
  have e1 : ("price" == k) = false := beq_eq_false_iff_ne.mpr (Ne.symm h1)
  have e2 : ("amount" == k) = false := beq_eq_false_iff_ne.mpr (Ne.symm h2)
  have e3 : ("order_total" == k) = false := beq_eq_false_iff_ne.mpr (Ne.symm h3)
  have e4 : ("in_stock" == k) = false := beq_eq_false_iff_ne.mpr (Ne.symm h4)
  have e5 : ("quantity" == k) = false := beq_eq_false_iff_ne.mpr (Ne.symm h5)
  have e6 : ("rating" == k) = false := beq_eq_false_iff_ne.mpr (Ne.symm h6)
  unfold convertField FIELD_CONVERTERS
  simp only [List.find?, e1, e2, e3, e4, e5, e6]

/-- The 15 users the Generator produces, evaluated. -/
theorem generate_users_eval : generate_users =
  [⟨"U001", "Ava Patel", "ava.patel@shopperhub.com", "2024-01-01", "Bronze"⟩,
 ⟨"U002", "Noah Smith", "noah.smith@shopperhub.com", "2024-01-04", "Silver"⟩,
 ⟨"U003", "Liam Chen", "liam.chen@shopperhub.com", "2024-01-07", "Gold"⟩,
 ⟨"U004", "Emma Lopez", "emma.lopez@shopperhub.com", "2024-01-10", "Bronze"⟩,
 ⟨"U005", "Mia Davis", "mia.davis@shopperhub.com", "2024-01-13", "Silver"⟩,
 ⟨"U006", "Elijah Lee", "elijah.lee@shopperhub.com", "2024-01-16", "Gold"⟩,
 ⟨"U007", "Isabella Brown", "isabella.brown@shopperhub.com", "2024-01-19", "Bronze"⟩,
 ⟨"U008", "Sophia Wilson", "sophia.wilson@shopperhub.com", "2024-01-22", "Silver"⟩,
 ⟨"U009", "James Garcia", "james.garcia@shopperhub.com", "2024-01-25", "Gold"⟩,
 ⟨"U010", "Lucas Nguyen", "lucas.nguyen@shopperhub.com", "2024-01-28", "Bronze"⟩,
 ⟨"U011", "Amelia Clark", "amelia.clark@shopperhub.com", "2024-01-31", "Silver"⟩,
 ⟨"U012", "Harper Miller", "harper.miller@shopperhub.com", "2024-02-03", "Gold"⟩,
 ⟨"U013", "Ethan Hernandez", "ethan.hernandez@shopperhub.com", "2024-02-06", "Bronze"⟩,
 ⟨"U014", "Oliver Johnson", "oliver.johnson@shopperhub.com", "2024-02-09", "Silver"⟩,
 ⟨"U015", "Charlotte Martinez", "charlotte.martinez@shopperhub.com", "2024-02-12", "Gold"⟩] := by decide

/-- The 15 products the Generator produces, evaluated. -/
theorem generate_products_eval : generate_products =
  [⟨"P001", "Smartwatch", "Wearables", "149.99", 53⟩,
 ⟨"P002", "Noise Cancelling Headphones", "Audio", "199.50", 56⟩,
 ⟨"P003", "4K Monitor", "Displays", "329.00", 59⟩,
 ⟨"P004", "Mechanical Keyboard", "Peripherals", "119.00", 62⟩,
 ⟨"P005", "Gaming Mouse", "Peripherals", "59.00", 65⟩,
 ⟨"P006", "Wireless Charger", "Accessories", "39.99", 68⟩,
 ⟨"P007", "Portable SSD", "Storage", "109.50", 71⟩,
 ⟨"P008", "Bluetooth Speaker", "Audio", "89.00", 74⟩,
 ⟨"P009", "Fitness Tracker", "Wearables", "99.00", 77⟩,
 ⟨"P010", "Smart Home Hub", "Smart Home", "129.00", 80⟩,
 ⟨"P011", "Action Camera", "Cameras", "249.00", 83⟩,
 ⟨"P012", "Drone Mini", "Cameras", "399.00", 86⟩,
 ⟨"P013", "E-reader", "Tablets", "139.00", 89⟩,
 ⟨"P014", "USB-C Hub", "Accessories", "49.50", 92⟩,
 ⟨"P015", "Noise Sensor", "Smart Home", "79.00", 95⟩] := by decide

/-- The 15 orders the Generator produces (quantities are the draws of
`Random(42).randint(1, 4)`), evaluated. -/
theorem generate_orders_eval : generate_orders generate_users generate_products =
  [⟨"O001", "U001", "P001", 1, "2024-02-01", "Processing", "149.99"⟩,
 ⟨"O002", "U002", "P002", 1, "2024-02-02", "Shipped", "199.50"⟩,
 ⟨"O003", "U003", "P003", 3, "2024-02-03", "Delivered", "987.00"⟩,
 ⟨"O004", "U004", "P004", 2, "2024-02-04", "Processing", "238.00"⟩,
 ⟨"O005", "U005", "P005", 2, "2024-02-05", "Shipped", "118.00"⟩,
 ⟨"O006", "U006", "P006", 2, "2024-02-06", "Delivered", "79.98"⟩,
 ⟨"O007", "U007", "P007", 1, "2024-02-07", "Processing", "109.50"⟩,
 ⟨"O008", "U008", "P008", 1, "2024-02-08", "Shipped", "89.00"⟩,
 ⟨"O009", "U009", "P009", 4, "2024-02-09", "Delivered", "396.00"⟩,
 ⟨"O010", "U010", "P010", 1, "2024-02-10", "Processing", "129.00"⟩,
 ⟨"O011", "U011", "P011", 1, "2024-02-11", "Shipped", "249.00"⟩,
 ⟨"O012", "U012", "P012", 1, "2024-02-12", "Delivered", "399.00"⟩,
 ⟨"O013", "U013", "P013", 2, "2024-02-13", "Processing", "278.00"⟩,
 ⟨"O014", "U014", "P014", 2, "2024-02-14", "Shipped", "99.00"⟩,
 ⟨"O015", "U015", "P015", 1, "2024-02-15", "Delivered", "79.00"⟩] := by decide

/-- The 15 reviews the Generator produces (ratings are the draws of
`Random(7).randint(3, 5)`), evaluated. -/
theorem generate_reviews_eval : generate_reviews (generate_orders generate_users generate_products) =
  [⟨"R001", "O001", 4, "Great value for the price.", "2024-03-01"⟩,
 ⟨"R002", "O002", 3, "Fast shipping and solid quality.", "2024-03-02"⟩,
 ⟨"R003", "O003", 4, "Met my expectations.", "2024-03-03"⟩,
 ⟨"R004", "O004", 5, "Would definitely recommend.", "2024-03-04"⟩,
 ⟨"R005", "O005", 3, "Packaging could be better, product works fine.", "2024-03-05"⟩,
 ⟨"R006", "O006", 3, "Great value for the price.", "2024-03-06"⟩,
 ⟨"R007", "O007", 5, "Fast shipping and solid quality.", "2024-03-07"⟩,
 ⟨"R008", "O008", 3, "Met my expectations.", "2024-03-08"⟩,
 ⟨"R009", "O009", 4, "Would definitely recommend.", "2024-03-09"⟩,
 ⟨"R010", "O010", 5, "Packaging could be better, product works fine.", "2024-03-10"⟩,
 ⟨"R011", "O011", 3, "Great value for the price.", "2024-03-11"⟩,
 ⟨"R012", "O012", 5, "Fast shipping and solid quality.", "2024-03-12"⟩,
 ⟨"R013", "O013", 3, "Met my expectations.", "2024-03-13"⟩,
 ⟨"R014", "O014", 3, "Would definitely recommend.", "2024-03-14"⟩,
 ⟨"R015", "O015", 3, "Packaging could be better, product works fine.", "2024-03-15"⟩] := by
  rw [generate_orders_eval]
  decide

/-- The 15 payments the Generator produces, evaluated. -/
theorem generate_payments_eval : generate_payments (generate_orders generate_users generate_products) =
  [⟨"PM001", "O001", "149.99", "Credit Card", "Completed"⟩,
 ⟨"PM002", "O002", "199.50", "PayPal", "Completed"⟩,
 ⟨"PM003", "O003", "987.00", "Gift Card", "Pending"⟩,
 ⟨"PM004", "O004", "238.00", "Credit Card", "Completed"⟩,
 ⟨"PM005", "O005", "118.00", "PayPal", "Completed"⟩,
 ⟨"PM006", "O006", "79.98", "Gift Card", "Pending"⟩,
 ⟨"PM007", "O007", "109.50", "Credit Card", "Completed"⟩,
 ⟨"PM008", "O008", "89.00", "PayPal", "Completed"⟩,
 ⟨"PM009", "O009", "396.00", "Gift Card", "Pending"⟩,
 ⟨"PM010", "O010", "129.00", "Credit Card", "Completed"⟩,
 ⟨"PM011", "O011", "249.00", "PayPal", "Completed"⟩,
 ⟨"PM012", "O012", "399.00", "Gift Card", "Pending"⟩,
 ⟨"PM013", "O013", "278.00", "Credit Card", "Completed"⟩,
 ⟨"PM014", "O014", "99.00", "PayPal", "Completed"⟩,
 ⟨"PM015", "O015", "79.00", "Gift Card", "Pending"⟩] := by
  rw [generate_orders_eval]
  decide


/-! ## Claims -/

/-- C1: for every order produced by the Generator, `order_total` equals
`quantity` times the price of the product with that order's `product_id`,
formatted to two decimal places as text. -/
theorem c1_order_total_formula :
    ∀ o ∈ generate_orders generate_users generate_products,
      o.order_total
        = format2f ((o.quantity : ℚ) * productPrice generate_products o.product_id) := by
  simp only [← ratMul_eq]
  rw [generate_orders_eval, generate_products_eval]
  decide

/-- Witness for C1 at the third generated order (quantity 3 of the 329.00
product). -/
theorem c1_order_total_formula_witness :
    (⟨"O003", "U003", "P003", 3, "2024-02-03", "Delivered", "987.00"⟩ : Order)
        ∈ generate_orders generate_users generate_products ∧
    ("987.00" : String)
        = format2f ((((3 : Nat)) : ℚ) * productPrice generate_products "P003") := by
  constructor
  · rw [generate_orders_eval]
    decide
  · exact c1_order_total_formula
      ⟨"O003", "U003", "P003", 3, "2024-02-03", "Delivered", "987.00"⟩
      (by rw [generate_orders_eval]; decide)

/-- C2 as stated is false: a cell in the `order_total` column is converted
to floating-point by the Loader, not left as unchanged text. -/
theorem c2_counterexample :
    load_csv ⟨["order_total"], [["149.99"]]⟩
        = [[("order_total", SqlValue.real (mkRat 14999 100))]] ∧
    SqlValue.real (mkRat 14999 100) ≠ SqlValue.text "149.99" := by
  decide

/-- C2 (amended): the Loader's field typing converts exactly the columns
`price`, `amount` and `order_total` to floating-point, the columns
`in_stock`, `quantity` and `rating` to integer, and leaves every other
column's value as unchanged text; the conversion is applied cell by cell
to every row of every CSV, keyed only by column name. -/
theorem c2_field_typing :
    ∀ k v : String,
      ((k = "price" ∨ k = "amount" ∨ k = "order_total") →
        convertField k v = SqlValue.real (pyFloat v)) ∧
      ((k = "in_stock" ∨ k = "quantity" ∨ k = "rating") →
        convertField k v = SqlValue.int (pyInt v)) ∧
      ((k ≠ "price" ∧ k ≠ "amount" ∧ k ≠ "order_total" ∧
        k ≠ "in_stock" ∧ k ≠ "quantity" ∧ k ≠ "rating") →
        convertField k v = SqlValue.text v) ∧
      ∀ file : CSVFile,
        load_csv file
          = file.rows.map fun r =>
              (file.header.zip r).map fun kv => (kv.1, convertField kv.1 kv.2) := by
  intro k v
  refine ⟨?_, ?_, ?_, fun _ => rfl⟩
  · rintro (rfl | rfl | rfl)
    · exact convertField_price v
    · exact convertField_amount v
    · exact convertField_order_total v
  · rintro (rfl | rfl | rfl)
    · exact convertField_in_stock v
    · exact convertField_quantity v
    · exact convertField_rating v
  · rintro ⟨h1, h2, h3, h4, h5, h6⟩
    exact convertField_other k v h1 h2 h3 h4 h5 h6

/-- Witness for C2 at the `order_total`, `rating` and `name` columns. -/
theorem c2_field_typing_witness :
    convertField "order_total" "149.99" = SqlValue.real (pyFloat "149.99") ∧
    convertField "rating" "4" = SqlValue.int (pyInt "4") ∧
    convertField "name" "Ava Patel" = SqlValue.text "Ava Patel" :=
  ⟨(c2_field_typing "order_total" "149.99").1 (Or.inr (Or.inr rfl)),
   (c2_field_typing "rating" "4").2.1 (Or.inr (Or.inr rfl)),
   (c2_field_typing "name" "Ava Patel").2.2.1 (by decide)⟩

/-- C3: the Generator's output is a deterministic function with no
dependence on external input — any two runs produce identical
filename/byte-content pairs for all five CSV files. -/
theorem c3_generator_deterministic :
    ∀ e₁ e₂ : ExternalInput, generatorRun e₁ = generatorRun e₂ :=
  fun _ _ => rfl

/-- C4 as stated is false: a legally loaded database can hold two reviews
for one order, and the Reporter then emits two rows for that single order
(the left join duplicates rather than drops). -/
theorem c4_counterexample :
    (loaderMain twoReviewInput emptyDB).2 = none ∧
    twoReviewDB.orders.length = 1 ∧
    (fetch_order_summary twoReviewDB).length = 2 := by
  decide

/-- C4 (amended): if every order matches exactly one user and one product
(as the loaded schema's keys guarantee) and at most one review and one
payment, the Reporter's row count equals the orders row count; moreover —
unconditionally — any joined row whose order has no matching review
carries a null rating field. -/
theorem c4_join_completeness (db : DB)
    (hu : ∀ o ∈ db.orders,
      (db.users.filter fun u => sqlEqB (cellAt u 0) (cellAt o 1)).length = 1)
    (hp : ∀ o ∈ db.orders,
      (db.products.filter fun pr => sqlEqB (cellAt pr 0) (cellAt o 2)).length = 1)
    (hr : ∀ o ∈ db.orders,
      (db.reviews.filter fun rv => sqlEqB (cellAt rv 1) (cellAt o 0)).length ≤ 1)
    (hpay : ∀ o ∈ db.orders,
      (db.payments.filter fun pay => sqlEqB (cellAt pay 1) (cellAt o 0)).length ≤ 1) :
    (fetch_order_summary db).length = db.orders.length ∧
    ∀ jr ∈ sortedJoinRows db,
      db.reviews.filter (fun rv => sqlEqB (cellAt rv 1) (cellAt jr.o 0)) = [] →
      cellAt (projectR jr) 3 = SqlValue.null := by
  constructor
  · have h0 : (fetch_order_summary db).length = (joinRows db).length := by
      unfold fetch_order_summary
      rw [List.length_map]
      unfold sortedJoinRows
      rw [List.length_insertionSort]
    rw [h0]
    unfold joinRows
    rw [List.length_map]
    rw [length_leftJoin]
    rw [sum_map_ones _ _ ?hpay1]
    case hpay1 =>
      intro a ha
      have h1 := mem_leftJoin_fst ha
      have h2 := mem_innerJoin_fst h1
      have h3 := mem_innerJoin_fst h2
      have := hpay _ h3
      omega
    rw [length_leftJoin]
    rw [sum_map_ones _ _ ?hrev1]
    case hrev1 =>
      intro a ha
      have h2 := mem_innerJoin_fst ha
      have h3 := mem_innerJoin_fst h2
      have := hr _ h3
      omega
    rw [length_innerJoin]
    rw [sum_map_ones _ _ ?hprod1]
    case hprod1 =>
      intro a ha
      have h3 := mem_innerJoin_fst ha
      exact hp _ h3
    rw [length_innerJoin]
    rw [sum_map_ones _ _ ?huser1]
    case huser1 =>
      intro a ha
      exact hu _ ha
  · intro jr hjr hfilter
    unfold sortedJoinRows at hjr
    rw [List.mem_insertionSort] at hjr
    unfold joinRows at hjr
    rw [List.mem_map] at hjr
    obtain ⟨x, hx, hjr_eq⟩ := hjr
    have hx1 := mem_leftJoin_fst hx
    have hrnone : x.1.2 = none := by
      apply leftJoin_none_of_no_match hx1
      have hoeq : cellAt jr.o 0 = cellAt x.1.1.1.1 0 := by rw [← hjr_eq]
      rw [hoeq] at hfilter
      exact hfilter
    have hjrr : jr.r = none := by
      rw [← hjr_eq]
      exact hrnone
    unfold projectR
    rw [hjrr]
    rfl

/-- Witness for C4 on a one-order database with no reviews or payments. -/
theorem c4_join_completeness_witness :
    (fetch_order_summary oneOrderDB).length = oneOrderDB.orders.length :=
  (c4_join_completeness oneOrderDB (by decide) (by decide) (by decide) (by decide)).1

/-- C5: if the data directory does not exist, the Loader fails with the
missing-directory error before any table is dropped or created; the
database state is returned unchanged. -/
theorem c5_missing_data_dir (inp : LoaderInput) (db0 : DB)
    (h : inp.dataDirExists = false) :
    loaderMain inp db0 = (db0, some "Data directory not found") := by
  unfold loaderMain
  rw [if_pos h]

/-- Witness for C5 on a nonempty database state. -/
theorem c5_missing_data_dir_witness :
    loaderMain ⟨false, []⟩ oneOrderDB = (oneOrderDB, some "Data directory not found") :=
  c5_missing_data_dir ⟨false, []⟩ oneOrderDB rfl

/-- C6: `reset_tables` disables foreign-key enforcement, drops the five
tables in reverse dependency order (payments, reviews, orders, products,
users), commits, re-enables enforcement, recreates them in forward
dependency order (users, products, orders, reviews, payments), and in
this sequence no table is created before the tables it references. -/
theorem c6_reset_tables_order :
    resetTablesTrace =
      [DBOp.pragmaForeignKeys false,
       DBOp.dropTable "payments", DBOp.dropTable "reviews", DBOp.dropTable "orders",
       DBOp.dropTable "products", DBOp.dropTable "users",
       DBOp.commit, DBOp.pragmaForeignKeys true,
       DBOp.createTable "users" [], DBOp.createTable "products" [],
       DBOp.createTable "orders" ["users", "products"],
       DBOp.createTable "reviews" ["orders"], DBOp.createTable "payments" ["orders"],
       DBOp.commit] ∧
    createRespectsDeps resetTablesTrace = true := by
  decide

/-- C7: the Reporter's rows are ordered ascending by `order_date` then
`order_id` (the report is the projection of the join rows sorted by that
key), and the output CSV begins with the fixed five-column header. -/
theorem c7_report_order_and_header :
    ∀ db : DB,
      fetch_order_summary db = (sortedJoinRows db).map projectR ∧
      List.Sorted jrowLe (sortedJoinRows db) ∧
      (write_summary (fetch_order_summary db)).head? = some summaryHeaders := by
  intro db
  refine ⟨rfl, ?_, rfl⟩
  unfold sortedJoinRows
  exact @List.sorted_insertionSort JRow jrowLe _ ⟨jrowLe_total⟩ ⟨jrowLe_trans⟩ (joinRows db)

/-- C8: referential integrity of the generated record sets — every order
references an existing user and product, every review and payment an
existing order, and all IDs are unique within their record set. -/
theorem c8_referential_integrity :
    (∀ o ∈ generate_orders generate_users generate_products,
      (∃ u ∈ generate_users, u.user_id = o.user_id) ∧
      ∃ p ∈ generate_products, p.product_id = o.product_id) ∧
    (∀ rv ∈ generate_reviews (generate_orders generate_users generate_products),
      ∃ o ∈ generate_orders generate_users generate_products, o.order_id = rv.order_id) ∧
    (∀ pm ∈ generate_payments (generate_orders generate_users generate_products),
      ∃ o ∈ generate_orders generate_users generate_products, o.order_id = pm.order_id) ∧
    (generate_users.map User.user_id).Nodup ∧
    (generate_products.map Product.product_id).Nodup ∧
    ((generate_orders generate_users generate_products).map Order.order_id).Nodup ∧
    ((generate_reviews (generate_orders generate_users generate_products)).map
        Review.review_id).Nodup ∧
    ((generate_payments (generate_orders generate_users generate_products)).map
        Payment.payment_id).Nodup := by
  rw [generate_reviews_eval, generate_payments_eval, generate_orders_eval,
      generate_users_eval, generate_products_eval]
  decide

/-- Witness for C8 at the first generated order. -/
theorem c8_referential_integrity_witness :
    (⟨"O001", "U001", "P001", 1, "2024-02-01", "Processing", "149.99"⟩ : Order)
        ∈ generate_orders generate_users generate_products ∧
    ((∃ u ∈ generate_users, u.user_id = "U001") ∧
      ∃ p ∈ generate_products, p.product_id = "P001") := by
  constructor
  · rw [generate_orders_eval]
    decide
  · exact c8_referential_integrity.1
      ⟨"O001", "U001", "P001", 1, "2024-02-01", "Processing", "149.99"⟩
      (by rw [generate_orders_eval]; decide)

/-- C9: the default run produces 15 data rows per CSV, loads 15 rows into
each of the five tables, and the report has exactly 15 rows, the first
being order `O001` dated `2024-02-01`. -/
theorem c9_default_scenario :
    (generatorFiles.map fun f => f.2.rows.length) = [15, 15, 15, 15, 15] ∧
    (loaderMain genLoaderInput emptyDB).2 = none ∧
    genDB.users.length = 15 ∧ genDB.products.length = 15 ∧ genDB.orders.length = 15 ∧
    genDB.reviews.length = 15 ∧ genDB.payments.length = 15 ∧
    (fetch_order_summary genDB).length = 15 ∧
    (sortedJoinRows genDB).head?.map (fun x => (cellAt x.o 0, cellAt x.o 4)) =
      some (SqlValue.text "O001", SqlValue.text "2024-02-01") ∧
    (fetch_order_summary genDB).head? =
      some [SqlValue.text "Ava Patel", SqlValue.text "Smartwatch", SqlValue.text "2024-02-01",
            SqlValue.int 4, SqlValue.text "Completed"] := by
  decide

/-- C10: every generated payment's `amount` is the identical
`order_total` text of the order it references. -/
theorem c10_payment_amount_eq_order_total :
    ∀ pm ∈ generate_payments (generate_orders generate_users generate_products),
      (∃ o ∈ generate_orders generate_users generate_products, o.order_id = pm.order_id) ∧
      ∀ o ∈ generate_orders generate_users generate_products,
        o.order_id = pm.order_id → pm.amount = o.order_total := by
  rw [generate_payments_eval, generate_orders_eval]
  decide

/-- Witness for C10 at the first generated payment. -/
theorem c10_payment_amount_eq_order_total_witness :
    (⟨"PM001", "O001", "149.99", "Credit Card", "Completed"⟩ : Payment)
        ∈ generate_payments (generate_orders generate_users generate_products) ∧
    ∃ o ∈ generate_orders generate_users generate_products, o.order_id = "O001" := by
  constructor
  · rw [generate_payments_eval]
    decide
  · exact (c10_payment_amount_eq_order_total
      ⟨"PM001", "O001", "149.99", "Credit Card", "Completed"⟩
      (by rw [generate_payments_eval]; decide)).1

end ECom
